import Mathlib

/-!
# Verification of the Advanced-API DHCP reconciliation tasks

Shallow embedding of `pkg/internal/infrastructure/tasks_advanced_dhcp.go` from
`gardener-extension-provider-vsphere`.  Remote NSX-T calls are modelled by an
explicit `NsxClient` record of call results; every task's `Ensure` /
`EnsureDeleted` is a pure function from the client, the spec and the state to
the new state, the returned Go `error` value, and the trace of remote calls it
issued.  Go nil-pointer dereferences are modelled explicitly by the
`GoResult.panics` outcome.

Helpers of the same package that are not part of the given sources
(`cidrHost`, `cidrHostAndPrefix`, `toReference`, `equalOrderedStrings`,
`readingErr`/`creatingErr`/`updatingErr`, `FullClusterName`,
`createCommonTags`, `description`) are modelled from the specification and
marked as such in their doc comments.
-/

namespace Infrastructure

/-- NSX-T common tag (`common.Tag` of the go-vmware-nsxt client): a
`{Scope, Tag}` pair stamped on created remote objects. -/
structure Tag where
  scope : String
  tag : String
deriving DecidableEq, Repr, Inhabited

/-- An opaque Go `error` value as produced by the transport layer. -/
structure GoError where
  msg : String
deriving DecidableEq, Repr, Inhabited

/-- The part of a Go `*http.Response` the source inspects. -/
structure HttpResponse where
  statusCode : Nat
deriving DecidableEq, Repr, Inhabited

/-- Result triple `(payload, resp, err)` of a remote list/read/create/update
call; `resp` is an `Option` because the Go response pointer may be nil. -/
structure CallResult (α : Type) where
  payload : α
  resp : Option HttpResponse
  err : Option GoError
deriving DecidableEq, Repr, Inhabited

/-- Result pair `(resp, err)` of a remote delete call. -/
structure DeleteCallResult where
  resp : Option HttpResponse
  err : Option GoError
deriving DecidableEq, Repr, Inhabited

/-- Models the recurring Go guard `resp != nil && resp.StatusCode ==
http.StatusNotFound`. -/
def resp404 : Option HttpResponse → Bool
  | some resp => resp.statusCode == 404
  | none => false

/-- `manager.DhcpProfile` restricted to the fields the source uses. -/
structure DhcpProfile where
  Id : String
  DisplayName : String
  Description : String
  EdgeClusterId : String
  Tags : List Tag
deriving DecidableEq, Repr, Inhabited

/-- `manager.IPv4DhcpServer` restricted to the fields the source uses. -/
structure IPv4DhcpServer where
  DhcpServerIp : String
  DnsNameservers : List String
  GatewayIp : String
deriving DecidableEq, Repr, Inhabited

/-- `manager.LogicalDhcpServer` restricted to the fields the source uses;
`Ipv4DhcpServer` is a pointer in Go, hence an `Option` here. -/
structure LogicalDhcpServer where
  Id : String
  Description : String
  DisplayName : String
  Tags : List Tag
  DhcpProfileId : String
  Ipv4DhcpServer : Option IPv4DhcpServer
deriving DecidableEq, Repr, Inhabited

/-- `manager.IpPoolRange`. -/
structure IpPoolRange where
  Start : String
  End : String
deriving DecidableEq, Repr, Inhabited

/-- `manager.DhcpIpPool` restricted to the fields the source uses. -/
structure DhcpIpPool where
  Id : String
  DisplayName : String
  Description : String
  GatewayIp : String
  LeaseTime : Int
  ErrorThreshold : Int
  WarningThreshold : Int
  AllocationRanges : List IpPoolRange
  Tags : List Tag
deriving DecidableEq, Repr, Inhabited

/-- `manager.LogicalPortAttachment`. -/
structure LogicalPortAttachment where
  AttachmentType : String
  Id : String
deriving DecidableEq, Repr, Inhabited

/-- `manager.LogicalPort` restricted to the fields the source uses;
`Attachment` is a pointer in Go, hence an `Option` here. -/
structure LogicalPort where
  Id : String
  DisplayName : String
  Description : String
  LogicalSwitchId : String
  AdminState : String
  Tags : List Tag
  Attachment : Option LogicalPortAttachment
deriving DecidableEq, Repr, Inhabited

/-- An edge cluster as returned by `ListEdgeClusters` (fields the source uses). -/
structure EdgeCluster where
  Id : String
  DisplayName : String
deriving DecidableEq, Repr, Inhabited

/-- `manager.EdgeClusterListResult` restricted to the fields the source uses. -/
structure EdgeClusterListResult where
  Results : List EdgeCluster
deriving DecidableEq, Repr, Inhabited

/-- A logical switch as returned by `ListLogicalSwitches` (fields the source
uses: the id and the tags scanned for the correlation tag). -/
structure LogicalSwitch where
  Id : String
  Tags : List Tag
deriving DecidableEq, Repr, Inhabited

/-- `manager.LogicalSwitchListResult` restricted to the fields the source uses. -/
structure LogicalSwitchListResult where
  Results : List LogicalSwitch
deriving DecidableEq, Repr, Inhabited

/-- The `AdvancedDHCP` sub-state of `NSXTInfraState`: one optional remote
identifier per resource handled by the Advanced-API tasks. -/
structure AdvancedDHCPState where
  EdgeClusterID : Option String
  ProfileID : Option String
  ServerID : Option String
  LogicalSwitchID : Option String
  PortID : Option String
  IPPoolID : Option String
deriving DecidableEq, Repr, Inhabited

/-- The segment reference stored in the state; the source uses only its
`Path`. -/
structure SegmentReference where
  Path : String
deriving DecidableEq, Repr, Inhabited

/-- `NSXTInfraState` restricted to the fields the Advanced-API tasks use. -/
structure NSXTInfraState where
  AdvancedDHCP : AdvancedDHCPState
  SegmentRef : SegmentReference
deriving DecidableEq, Repr, Inhabited

/-- A 32-bit IPv4 network in CIDR form: the address as a number below `2^32`
and the prefix length. -/
structure Cidr where
  addr : Nat
  maskLen : Nat
deriving DecidableEq, Repr, Inhabited

/-- `NSXTInfraSpec` restricted to the fields the Advanced-API tasks use.
`ClusterName` and `CommonTags` carry the data behind the (not included)
`FullClusterName()` and `createCommonTags()` helpers. -/
structure NSXTInfraSpec where
  EdgeClusterName : String
  WorkersNetwork : Cidr
  DNSServers : List String
  ClusterName : String
  CommonTags : List Tag
deriving DecidableEq, Repr, Inhabited

/-- Modelled from the spec: `FullClusterName` (not under src/) is the
deterministic cluster display name derived from the spec's cluster identity. -/
def NSXTInfraSpec.FullClusterName (s : NSXTInfraSpec) : String := s.ClusterName

/-- Modelled from the spec: `createCommonTags` (not under src/) is the
deterministic provenance tag-set generator of the spec. -/
def NSXTInfraSpec.createCommonTags (s : NSXTInfraSpec) : List Tag := s.CommonTags

/-- The package-level `description` constant (not under src/) stamped on every
created object. -/
def description : String := "created by gardener-extension-provider-vsphere"

/-- The engine's handle to a remote object (spec section 3: `Reference`). -/
structure Reference where
  ID : String
deriving DecidableEq, Repr, Inhabited

/-- Modelled from the spec: `toReference` (not under src/) turns an optional
remote identifier into an optional `Reference`; absence maps to absence, never
to an empty-string sentinel. -/
def toReference : Option String → Option Reference
  | none => none
  | some s => some { ID := s }

/-- The Go `error` values the tasks return, by provenance. -/
inductive TaskErr where
  | transport (e : GoError)
  | reading (e : GoError)
  | creating (e : GoError)
  | updating (e : GoError)
  | unexpectedStatus (op : String) (code : Nat)
  | notFoundByName (name : String)
  | notFoundBySegmentPath (path : String)
  | addressWrapped (ctx : String) (msg : String)
deriving DecidableEq, Repr

/-- Modelled from the spec: `readingErr` (not under src/) wraps a transport
error with the reading-operation tag. -/
def readingErr (e : GoError) : TaskErr := .reading e

/-- Modelled from the spec: `creatingErr` (not under src/) wraps a transport
error with the creating-operation tag. -/
def creatingErr (e : GoError) : TaskErr := .creating e

/-- Modelled from the spec: `updatingErr` (not under src/) wraps a transport
error with the updating-operation tag. -/
def updatingErr (e : GoError) : TaskErr := .updating e

/-- `fmt.Errorf("%s failed with unexpected HTTP status code %d", ...)`. -/
def unexpectedStatusErr (op : String) (code : Nat) : TaskErr :=
  .unexpectedStatus op code

/-- `errors.Wrapf(err, ctx)` applied to an address-computation error. -/
def addressErr (ctx msg : String) : TaskErr := .addressWrapped ctx msg

/-- One remote call as issued by a task, carrying its request data. -/
inductive RemoteCall where
  | listEdgeClusters
  | readDhcpProfile (id : String)
  | createDhcpProfile (p : DhcpProfile)
  | updateDhcpProfile (id : String) (p : DhcpProfile)
  | deleteDhcpProfile (id : String)
  | readDhcpServer (id : String)
  | createDhcpServer (s : LogicalDhcpServer)
  | updateDhcpServer (id : String) (s : LogicalDhcpServer)
  | deleteDhcpServer (id : String)
  | listLogicalSwitches
  | getLogicalPort (id : String)
  | createLogicalPort (p : LogicalPort)
  | updateLogicalPort (id : String) (p : LogicalPort)
  | deleteLogicalPort (id : String) (detach : Bool)
  | readDhcpIpPool (serverId poolId : String)
  | createDhcpIpPool (serverId : String) (p : DhcpIpPool)
  | updateDhcpIpPool (serverId poolId : String) (p : DhcpIpPool)
  | deleteDhcpIpPool (serverId poolId : String)
deriving DecidableEq, Repr

/-- Is the call a remote create? -/
def RemoteCall.isCreate : RemoteCall → Bool
  | .createDhcpProfile _ => true
  | .createDhcpServer _ => true
  | .createLogicalPort _ => true
  | .createDhcpIpPool _ _ => true
  | _ => false

/-- Is the call a remote update? -/
def RemoteCall.isUpdate : RemoteCall → Bool
  | .updateDhcpProfile _ _ => true
  | .updateDhcpServer _ _ => true
  | .updateLogicalPort _ _ => true
  | .updateDhcpIpPool _ _ _ => true
  | _ => false

/-- Outcome of running a Go function body: either a normal return or a runtime
panic (nil-pointer dereference). -/
inductive GoResult (α : Type) where
  | ret (a : α)
  | panics
deriving DecidableEq, Repr

/-- A run of a task's `Ensure`: the returned `(state, error)` (or a panic) and
the trace of remote calls issued before returning. -/
structure TaskRun where
  result : GoResult (NSXTInfraState × Option TaskErr)
  calls : List RemoteCall
deriving DecidableEq, Repr

/-- A run of a task's `EnsureDeleted`: the returned `(state, deleted, error)`
(or a panic) and the trace of remote calls issued before returning. -/
structure DeleteRun where
  result : GoResult (NSXTInfraState × Bool × Option TaskErr)
  calls : List RemoteCall
deriving DecidableEq, Repr

/-- Record a call issued before the rest of the run. -/
def prependCall (call : RemoteCall) (run : TaskRun) : TaskRun :=
  { run with calls := call :: run.calls }

/-- Field update helper for `state.AdvancedDHCP.EdgeClusterID`. -/
def setEdgeClusterID (state : NSXTInfraState) (v : Option String) : NSXTInfraState :=
  { state with AdvancedDHCP := { state.AdvancedDHCP with EdgeClusterID := v } }

/-- Field update helper for `state.AdvancedDHCP.ProfileID`. -/
def setProfileID (state : NSXTInfraState) (v : Option String) : NSXTInfraState :=
  { state with AdvancedDHCP := { state.AdvancedDHCP with ProfileID := v } }

/-- Field update helper for `state.AdvancedDHCP.ServerID`. -/
def setServerID (state : NSXTInfraState) (v : Option String) : NSXTInfraState :=
  { state with AdvancedDHCP := { state.AdvancedDHCP with ServerID := v } }

/-- Field update helper for `state.AdvancedDHCP.LogicalSwitchID`. -/
def setLogicalSwitchID (state : NSXTInfraState) (v : Option String) : NSXTInfraState :=
  { state with AdvancedDHCP := { state.AdvancedDHCP with LogicalSwitchID := v } }

/-- Field update helper for `state.AdvancedDHCP.PortID`. -/
def setPortID (state : NSXTInfraState) (v : Option String) : NSXTInfraState :=
  { state with AdvancedDHCP := { state.AdvancedDHCP with PortID := v } }

/-- Field update helper for `state.AdvancedDHCP.IPPoolID`. -/
def setIPPoolID (state : NSXTInfraState) (v : Option String) : NSXTInfraState :=
  { state with AdvancedDHCP := { state.AdvancedDHCP with IPPoolID := v } }

/-- Render a 32-bit address in dotted-quad notation. -/
def ipv4ToString (n : Nat) : String :=
  toString (n / 16777216 % 256) ++ "." ++ toString (n / 65536 % 256) ++ "." ++
    toString (n / 256 % 256) ++ "." ++ toString (n % 256)

/-- Modelled from the spec: `cidrHost` (not under src/).  Deterministic address
derivation from the worker subnet CIDR: a host offset `n ≥ 0` counts up from
the network address; a negative offset counts down from the broadcast address
(offset `-1` is the last usable host, i.e. broadcast minus one).  Fails with an
address-computation error when the subnet cannot hold the offset (too small a
prefix) or the prefix length is malformed. -/
def cidrHost (c : Cidr) (n : Int) : Except String String :=
  if c.maskLen > 32 then
    .error "invalid prefix length"
  else
    let size : Nat := 2 ^ (32 - c.maskLen)
    let network : Nat := c.addr / size * size
    if 0 ≤ n then
      if n.toNat < size then .ok (ipv4ToString (network + n.toNat))
      else .error "host offset out of range for subnet"
    else
      if (-n).toNat < size then .ok (ipv4ToString (network + size - 1 - (-n).toNat))
      else .error "host offset out of range for subnet"

/-- Modelled from the spec: `cidrHostAndPrefix` (not under src/): the host
address with the subnet's prefix length appended, e.g. `10.0.0.2/24`.  (Named
`cidrHostAndMask` here.) -/
def cidrHostAndMask (c : Cidr) (n : Int) : Except String String :=
  match cidrHost c n with
  | .error e => .error e
  | .ok s => .ok (s ++ "/" ++ toString c.maskLen)

/-- `equalCommonTags` (source lines 414-431): false when the lengths differ,
otherwise true when every tag of `a` has a scope-and-tag match somewhere in
`b`. -/
def equalCommonTags (a b : List Tag) : Bool :=
  if a.length != b.length then
    false
  else
    a.all fun ai => b.any fun bi => ai.scope == bi.scope && ai.tag == bi.tag

/-- Modelled from the spec: `equalOrderedStrings` (not under src/) compares
DNS-server lists positionally (ordered, element by element). -/
def equalOrderedStrings (a b : List String) : Bool := a == b

/-- The remote NSX-T API collaborator, as a record of call results: for each
endpoint, the `(payload, resp, err)` triple the client would return for the
given request during this reconciliation pass. -/
structure NsxClient where
  ListEdgeClusters : CallResult EdgeClusterListResult
  ReadDhcpProfile : String → CallResult DhcpProfile
  CreateDhcpProfile : DhcpProfile → CallResult DhcpProfile
  UpdateDhcpProfile : String → DhcpProfile → CallResult DhcpProfile
  DeleteDhcpProfile : String → DeleteCallResult
  ReadDhcpServer : String → CallResult LogicalDhcpServer
  CreateDhcpServer : LogicalDhcpServer → CallResult LogicalDhcpServer
  UpdateDhcpServer : String → LogicalDhcpServer → CallResult LogicalDhcpServer
  DeleteDhcpServer : String → DeleteCallResult
  ListLogicalSwitches : CallResult LogicalSwitchListResult
  GetLogicalPort : String → CallResult LogicalPort
  CreateLogicalPort : LogicalPort → CallResult LogicalPort
  UpdateLogicalPort : String → LogicalPort → CallResult LogicalPort
  DeleteLogicalPort : String → Bool → DeleteCallResult
  ReadDhcpIpPool : String → String → CallResult DhcpIpPool
  CreateDhcpIpPool : String → DhcpIpPool → CallResult DhcpIpPool
  UpdateDhcpIpPool : String → String → DhcpIpPool → CallResult DhcpIpPool
  DeleteDhcpIpPool : String → String → DeleteCallResult

namespace advancedLookupEdgeClusterTask

/-- `advancedLookupEdgeClusterTask`'s diagnostic label (source line 32). -/
def label : String := "edge cluster lookup (Advanced API)"

/-- `name` (source line 35). -/
def name (spec : NSXTInfraSpec) : Option String := some spec.EdgeClusterName

/-- `reference` (source lines 37-39). -/
def reference (state : NSXTInfraState) : Option Reference :=
  toReference state.AdvancedDHCP.EdgeClusterID

/-- `Ensure` (source lines 41-54): list all edge clusters — note the HTTP
response of `ListEdgeClusters` is discarded (`objList, _, err := ...`) — then
linearly scan for the first result whose display name matches, storing its id;
a missing match is a not-found error. -/
def Ensure (c : NsxClient) (spec : NSXTInfraSpec) (state : NSXTInfraState) : TaskRun :=
  let name := spec.EdgeClusterName
  let r := c.ListEdgeClusters
  let calls := [RemoteCall.listEdgeClusters]
  match r.err with
  | some e => { result := .ret (state, some (.transport e)), calls := calls }
  | none =>
    match r.payload.Results.find? (fun obj => obj.DisplayName == name) with
    | some obj => { result := .ret (setEdgeClusterID state (some obj.Id), none), calls := calls }
    | none => { result := .ret (state, some (.notFoundByName name)), calls := calls }

end advancedLookupEdgeClusterTask

namespace advancedDHCPProfileTask

/-- `advancedDHCPProfileTask`'s diagnostic label (source line 59). -/
def label : String := "DHCP profile (Advanced API)"

/-- `reference` (source lines 62-64).  The source builds the profile task's
reference from `state.AdvancedDHCP.PortID`, not from `ProfileID`. -/
def reference (state : NSXTInfraState) : Option Reference :=
  toReference state.AdvancedDHCP.PortID

/-- The desired `manager.DhcpProfile` built at the top of `Ensure` (source
lines 67-72); the dereference of `state.AdvancedDHCP.EdgeClusterID` happens in
`Ensure` itself. -/
def desiredProfile (spec : NSXTInfraSpec) (edgeClusterId : String) : DhcpProfile :=
  { Id := "",
    DisplayName := spec.FullClusterName,
    Description := description,
    EdgeClusterId := edgeClusterId,
    Tags := spec.createCommonTags }

/-- The update condition of `Ensure` (source lines 83-85). -/
def dhcpProfileNeedsUpdate (oldProfile profile : DhcpProfile) : Bool :=
  oldProfile.DisplayName != profile.DisplayName ||
  oldProfile.EdgeClusterId != profile.EdgeClusterId ||
  !(equalCommonTags oldProfile.Tags profile.Tags)

/-- The create branch of `Ensure` (source lines 97-105): call
`CreateDhcpProfile`, treat a transport error as a creating error, any status
other than 201 Created as an unexpected-status error, and on success store the
created id in `state.AdvancedDHCP.ProfileID`. -/
def EnsureCreate (c : NsxClient) (state : NSXTInfraState) (profile : DhcpProfile) : TaskRun :=
  let r := c.CreateDhcpProfile profile
  let calls := [RemoteCall.createDhcpProfile profile]
  match r.err with
  | some e => { result := .ret (state, some (creatingErr e)), calls := calls }
  | none =>
    match r.resp with
    | none => { result := .panics, calls := calls }
    | some resp =>
      if resp.statusCode != 201 then
        { result := .ret (state, some (unexpectedStatusErr "creating" resp.statusCode)), calls := calls }
      else
        { result := .ret (setProfileID state (some r.payload.Id), none), calls := calls }

/-- `Ensure` (source lines 66-106).  The self-heal recursion of the source
(`state.AdvancedDHCP.ProfileID = nil; return t.Ensure(a, spec, state)` on a 404
read) re-enters `Ensure` with a nil `ProfileID`, rebuilds the same desired
profile and deterministically takes the create branch, so it is embedded as a
direct call to `EnsureCreate` on the cleared state. -/
def Ensure (c : NsxClient) (spec : NSXTInfraSpec) (state : NSXTInfraState) : TaskRun :=
  match state.AdvancedDHCP.EdgeClusterID with
  | none => { result := .panics, calls := [] }
  | some edgeClusterId =>
    let profile := desiredProfile spec edgeClusterId
    match state.AdvancedDHCP.ProfileID with
    | none => EnsureCreate c state profile
    | some profileId =>
      let r := c.ReadDhcpProfile profileId
      let readCall := RemoteCall.readDhcpProfile profileId
      if resp404 r.resp then
        prependCall readCall (EnsureCreate c (setProfileID state none) profile)
      else
        match r.err with
        | some e => { result := .ret (state, some (readingErr e)), calls := [readCall] }
        | none =>
          if dhcpProfileNeedsUpdate r.payload profile then
            let u := c.UpdateDhcpProfile profileId profile
            let calls := [readCall, RemoteCall.updateDhcpProfile profileId profile]
            match u.err with
            | some e => { result := .ret (state, some (updatingErr e)), calls := calls }
            | none =>
              match u.resp with
              | none => { result := .panics, calls := calls }
              | some uresp =>
                if uresp.statusCode != 200 then
                  { result := .ret (state, some (unexpectedStatusErr "updating" uresp.statusCode)), calls := calls }
                else
                  { result := .ret (state, none), calls := calls }
          else
            { result := .ret (state, none), calls := [readCall] }

/-- `EnsureDeleted` (source lines 108-122): nil `ProfileID` is "nothing to
delete"; a 404 response clears the id and reports nothing-deleted success; any
other transport error is returned with the id left in place; otherwise the id
is cleared and deletion is reported. -/
def EnsureDeleted (c : NsxClient) (_spec : NSXTInfraSpec) (state : NSXTInfraState) : DeleteRun :=
  match state.AdvancedDHCP.ProfileID with
  | none => { result := .ret (state, false, none), calls := [] }
  | some profileId =>
    let r := c.DeleteDhcpProfile profileId
    let calls := [RemoteCall.deleteDhcpProfile profileId]
    if resp404 r.resp then
      { result := .ret (setProfileID state none, false, none), calls := calls }
    else
      match r.err with
      | some e => { result := .ret (state, false, some (.transport e)), calls := calls }
      | none => { result := .ret (setProfileID state none, true, none), calls := calls }

end advancedDHCPProfileTask

namespace advancedDHCPServerTask

/-- `advancedDHCPServerTask`'s diagnostic label (source line 127). -/
def label : String := "DHCP server (Advanced API)"

/-- `reference` (source lines 130-132). -/
def reference (state : NSXTInfraState) : Option Reference :=
  toReference state.AdvancedDHCP.ServerID

/-- The desired `manager.IPv4DhcpServer` built in `Ensure` (source lines
143-147). -/
def desiredIpv4 (spec : NSXTInfraSpec) (dhcpServerIP gatewayIP : String) : IPv4DhcpServer :=
  { DhcpServerIp := dhcpServerIP,
    DnsNameservers := spec.DNSServers,
    GatewayIp := gatewayIP }

/-- The desired `manager.LogicalDhcpServer` built in `Ensure` (source lines
149-155); the dereference of `state.AdvancedDHCP.ProfileID` happens in
`Ensure` itself. -/
def desiredServer (spec : NSXTInfraSpec) (dhcpProfileId dhcpServerIP gatewayIP : String) :
    LogicalDhcpServer :=
  { Id := "",
    Description := description,
    DisplayName := spec.FullClusterName,
    Tags := spec.createCommonTags,
    DhcpProfileId := dhcpProfileId,
    Ipv4DhcpServer := some (desiredIpv4 spec dhcpServerIP gatewayIP) }

/-- The update condition of `Ensure` (source lines 166-172).  `ipv4` is the
desired server's `Ipv4DhcpServer`, non-nil by construction in `Ensure`; the
source's short-circuit `oldServer.Ipv4DhcpServer == nil || ...` guards the
dereference of the old server's pointer and is rendered by the `match`. -/
def logicalDhcpServerNeedsUpdate (oldServer server : LogicalDhcpServer)
    (ipv4 : IPv4DhcpServer) : Bool :=
  oldServer.DisplayName != server.DisplayName ||
  oldServer.DhcpProfileId != server.DhcpProfileId ||
  (match oldServer.Ipv4DhcpServer with
   | none => true
   | some oldIpv4 =>
     oldIpv4.DhcpServerIp != ipv4.DhcpServerIp ||
     oldIpv4.GatewayIp != ipv4.GatewayIp ||
     !(equalOrderedStrings oldIpv4.DnsNameservers ipv4.DnsNameservers)) ||
  !(equalCommonTags oldServer.Tags server.Tags)

/-- The create branch of `Ensure` (source lines 184-192). -/
def EnsureCreate (c : NsxClient) (state : NSXTInfraState) (server : LogicalDhcpServer) : TaskRun :=
  let r := c.CreateDhcpServer server
  let calls := [RemoteCall.createDhcpServer server]
  match r.err with
  | some e => { result := .ret (state, some (creatingErr e)), calls := calls }
  | none =>
    match r.resp with
    | none => { result := .panics, calls := calls }
    | some resp =>
      if resp.statusCode != 201 then
        { result := .ret (state, some (unexpectedStatusErr "creating" resp.statusCode)), calls := calls }
      else
        { result := .ret (setServerID state (some r.payload.Id), none), calls := calls }

/-- `Ensure` (source lines 134-193): derive the DHCP server address (host
offset 2, with prefix) and the gateway address (host offset 1) from the worker
subnet, wrapping derivation failures; build the desired server (dereferencing
`ProfileID`); then read/diff/update or create.  The self-heal recursion on a
404 read re-enters with a nil `ServerID` and deterministically takes the create
branch, so it is embedded as a direct `EnsureCreate` on the cleared state. -/
def Ensure (c : NsxClient) (spec : NSXTInfraSpec) (state : NSXTInfraState) : TaskRun :=
  match cidrHostAndMask spec.WorkersNetwork 2 with
  | .error e => { result := .ret (state, some (addressErr "DHCP server IP" e)), calls := [] }
  | .ok dhcpServerIP =>
    match cidrHost spec.WorkersNetwork 1 with
    | .error e => { result := .ret (state, some (addressErr "gateway IP" e)), calls := [] }
    | .ok gatewayIP =>
      let ipv4DhcpServer := desiredIpv4 spec dhcpServerIP gatewayIP
      match state.AdvancedDHCP.ProfileID with
      | none => { result := .panics, calls := [] }
      | some dhcpProfileId =>
        let server := desiredServer spec dhcpProfileId dhcpServerIP gatewayIP
        match state.AdvancedDHCP.ServerID with
        | none => EnsureCreate c state server
        | some serverId =>
          let r := c.ReadDhcpServer serverId
          let readCall := RemoteCall.readDhcpServer serverId
          if resp404 r.resp then
            prependCall readCall (EnsureCreate c (setServerID state none) server)
          else
            match r.err with
            | some e => { result := .ret (state, some (readingErr e)), calls := [readCall] }
            | none =>
              if logicalDhcpServerNeedsUpdate r.payload server ipv4DhcpServer then
                let u := c.UpdateDhcpServer serverId server
                let calls := [readCall, RemoteCall.updateDhcpServer serverId server]
                match u.err with
                | some e => { result := .ret (state, some (updatingErr e)), calls := calls }
                | none =>
                  match u.resp with
                  | none => { result := .panics, calls := calls }
                  | some uresp =>
                    if uresp.statusCode != 200 then
                      { result := .ret (state, some (unexpectedStatusErr "updating" uresp.statusCode)), calls := calls }
                    else
                      { result := .ret (state, none), calls := calls }
              else
                { result := .ret (state, none), calls := [readCall] }

/-- `EnsureDeleted` (source lines 195-209). -/
def EnsureDeleted (c : NsxClient) (_spec : NSXTInfraSpec) (state : NSXTInfraState) : DeleteRun :=
  match state.AdvancedDHCP.ServerID with
  | none => { result := .ret (state, false, none), calls := [] }
  | some serverId =>
    let r := c.DeleteDhcpServer serverId
    let calls := [RemoteCall.deleteDhcpServer serverId]
    if resp404 r.resp then
      { result := .ret (setServerID state none, false, none), calls := calls }
    else
      match r.err with
      | some e => { result := .ret (state, false, some (.transport e)), calls := calls }
      | none => { result := .ret (setServerID state none, true, none), calls := calls }

end advancedDHCPServerTask

namespace advancedLookupLogicalSwitchTask

/-- `advancedLookupLogicalSwitchTask`'s diagnostic label (source line 214). -/
def label : String := "logical switch lookup (Advanced API)"

/-- `reference` (source lines 217-219). -/
def reference (state : NSXTInfraState) : Option Reference :=
  toReference state.AdvancedDHCP.LogicalSwitchID

/-- `Ensure` (source lines 221-238): list all logical switches, require a 200
status (the response pointer is dereferenced unconditionally), then scan for
the first switch carrying a tag with scope `policyPath` whose value equals the
known segment path, storing its id; a missing match is a not-found error. -/
def Ensure (c : NsxClient) (_spec : NSXTInfraSpec) (state : NSXTInfraState) : TaskRun :=
  let r := c.ListLogicalSwitches
  let calls := [RemoteCall.listLogicalSwitches]
  match r.err with
  | some e => { result := .ret (state, some (.transport e)), calls := calls }
  | none =>
    match r.resp with
    | none => { result := .panics, calls := calls }
    | some resp =>
      if resp.statusCode != 200 then
        { result := .ret (state, some (unexpectedStatusErr "listing" resp.statusCode)), calls := calls }
      else
        match r.payload.Results.find?
            (fun obj => obj.Tags.any fun t => t.scope == "policyPath" && t.tag == state.SegmentRef.Path) with
        | some obj =>
          { result := .ret (setLogicalSwitchID state (some obj.Id), none), calls := calls }
        | none =>
          { result := .ret (state, some (.notFoundBySegmentPath state.SegmentRef.Path)), calls := calls }

end advancedLookupLogicalSwitchTask

namespace advancedDHCPPortTask

/-- `advancedDHCPPortTask`'s diagnostic label (source line 243). -/
def label : String := "DHCP port (Advanced API)"

/-- `reference` (source lines 246-248). -/
def reference (state : NSXTInfraState) : Option Reference :=
  toReference state.AdvancedDHCP.PortID

/-- The desired `manager.LogicalPortAttachment` built in `Ensure` (source lines
251-254); the dereference of `state.AdvancedDHCP.ServerID` happens in `Ensure`
itself. -/
def desiredAttachment (serverId : String) : LogicalPortAttachment :=
  { AttachmentType := "DHCP_SERVICE", Id := serverId }

/-- The desired `manager.LogicalPort` built in `Ensure` (source lines 255-262);
the dereference of `state.AdvancedDHCP.LogicalSwitchID` happens in `Ensure`
itself. -/
def desiredPort (spec : NSXTInfraSpec) (logicalSwitchId serverId : String) : LogicalPort :=
  { Id := "",
    DisplayName := spec.FullClusterName,
    Description := description,
    LogicalSwitchId := logicalSwitchId,
    AdminState := "UP",
    Tags := spec.createCommonTags,
    Attachment := some (desiredAttachment serverId) }

/-- The update condition of `Ensure` (source lines 273-279).  `attachment` is
the desired port's attachment, non-nil by construction in `Ensure`; the
source's short-circuit `oldPort.Attachment == nil || ...` guards the
dereference of the old port's pointer and is rendered by the `match`. -/
def logicalPortNeedsUpdate (oldPort port : LogicalPort) (attachment : LogicalPortAttachment) : Bool :=
  oldPort.DisplayName != port.DisplayName ||
  oldPort.LogicalSwitchId != port.LogicalSwitchId ||
  oldPort.AdminState != port.AdminState ||
  (match oldPort.Attachment with
   | none => true
   | some oldAtt =>
     oldAtt.AttachmentType != attachment.AttachmentType ||
     oldAtt.Id != attachment.Id) ||
  !(equalCommonTags oldPort.Tags port.Tags)

/-- The create branch of `Ensure` (source lines 291-299). -/
def EnsureCreate (c : NsxClient) (state : NSXTInfraState) (port : LogicalPort) : TaskRun :=
  let r := c.CreateLogicalPort port
  let calls := [RemoteCall.createLogicalPort port]
  match r.err with
  | some e => { result := .ret (state, some (creatingErr e)), calls := calls }
  | none =>
    match r.resp with
    | none => { result := .panics, calls := calls }
    | some resp =>
      if resp.statusCode != 201 then
        { result := .ret (state, some (unexpectedStatusErr "creating" resp.statusCode)), calls := calls }
      else
        { result := .ret (setPortID state (some r.payload.Id), none), calls := calls }

/-- `Ensure` (source lines 250-300).  The self-heal recursion on a 404 read of
the port re-enters with a nil `PortID` and deterministically takes the create
branch, so it is embedded as a direct `EnsureCreate` on the cleared state. -/
def Ensure (c : NsxClient) (spec : NSXTInfraSpec) (state : NSXTInfraState) : TaskRun :=
  match state.AdvancedDHCP.ServerID with
  | none => { result := .panics, calls := [] }
  | some serverId =>
    let attachment := desiredAttachment serverId
    match state.AdvancedDHCP.LogicalSwitchID with
    | none => { result := .panics, calls := [] }
    | some logicalSwitchId =>
      let port := desiredPort spec logicalSwitchId serverId
      match state.AdvancedDHCP.PortID with
      | none => EnsureCreate c state port
      | some portId =>
        let r := c.GetLogicalPort portId
        let readCall := RemoteCall.getLogicalPort portId
        if resp404 r.resp then
          prependCall readCall (EnsureCreate c (setPortID state none) port)
        else
          match r.err with
          | some e => { result := .ret (state, some (readingErr e)), calls := [readCall] }
          | none =>
            if logicalPortNeedsUpdate r.payload port attachment then
              let u := c.UpdateLogicalPort portId port
              let calls := [readCall, RemoteCall.updateLogicalPort portId port]
              match u.err with
              | some e => { result := .ret (state, some (updatingErr e)), calls := calls }
              | none =>
                match u.resp with
                | none => { result := .panics, calls := calls }
                | some uresp =>
                  if uresp.statusCode != 200 then
                    { result := .ret (state, some (unexpectedStatusErr "updating" uresp.statusCode)), calls := calls }
                  else
                    { result := .ret (state, none), calls := calls }
            else
              { result := .ret (state, none), calls := [readCall] }

/-- `EnsureDeleted` (source lines 302-318): the delete call passes the `detach`
optional set to true. -/
def EnsureDeleted (c : NsxClient) (_spec : NSXTInfraSpec) (state : NSXTInfraState) : DeleteRun :=
  match state.AdvancedDHCP.PortID with
  | none => { result := .ret (state, false, none), calls := [] }
  | some portId =>
    let r := c.DeleteLogicalPort portId true
    let calls := [RemoteCall.deleteLogicalPort portId true]
    if resp404 r.resp then
      { result := .ret (setPortID state none, false, none), calls := calls }
    else
      match r.err with
      | some e => { result := .ret (state, false, some (.transport e)), calls := calls }
      | none => { result := .ret (setPortID state none, true, none), calls := calls }

end advancedDHCPPortTask

namespace advancedDHCPIPPoolTask

/-- `advancedDHCPIPPoolTask`'s diagnostic label (source line 323). -/
def label : String := "DHCP IP pool (Advanced API)"

/-- `reference` (source lines 326-328). -/
def reference (state : NSXTInfraState) : Option Reference :=
  toReference state.AdvancedDHCP.IPPoolID

/-- The desired `manager.DhcpIpPool` built in `Ensure` (source lines 343-356):
lease time 7200, error threshold 98, warning threshold 70, a single allocation
range from pool start to pool end. -/
def desiredPool (spec : NSXTInfraSpec) (gatewayIP startIP endIP : String) : DhcpIpPool :=
  { Id := "",
    DisplayName := spec.FullClusterName,
    Description := description,
    GatewayIp := gatewayIP,
    LeaseTime := 7200,
    ErrorThreshold := 98,
    WarningThreshold := 70,
    AllocationRanges := [{ Start := startIP, End := endIP }],
    Tags := spec.createCommonTags }

/-- The update condition of `Ensure` (source lines 367-375).  Note the source
compares the two thresholds with `==` (equality triggers the update), unlike
every other field which uses `!=`.  `range0` is the desired pool's single
allocation range (`pool.AllocationRanges[0]`, always present by construction);
the source's short-circuit `len(oldPool.AllocationRanges) != 1 || ...` guards
the indexing of the old pool's ranges and is rendered by the `match`. -/
def dhcpIpPoolNeedsUpdate (oldPool pool : DhcpIpPool) (range0 : IpPoolRange) : Bool :=
  oldPool.DisplayName != pool.DisplayName ||
  oldPool.GatewayIp != pool.GatewayIp ||
  oldPool.LeaseTime != pool.LeaseTime ||
  oldPool.ErrorThreshold == pool.ErrorThreshold ||
  oldPool.WarningThreshold == pool.WarningThreshold ||
  oldPool.AllocationRanges.length != 1 ||
  (match oldPool.AllocationRanges.head? with
   | none => true
   | some oldRange => oldRange.Start != range0.Start || oldRange.End != range0.End) ||
  !(equalCommonTags oldPool.Tags pool.Tags)

/-- The create branch of `Ensure` (source lines 387-395): `CreateDhcpIpPool`
takes `*state.AdvancedDHCP.ServerID` as the parent id, so a nil `ServerID` is
dereferenced here (a panic) before any remote call is issued. -/
def EnsureCreate (c : NsxClient) (state : NSXTInfraState) (pool : DhcpIpPool) : TaskRun :=
  match state.AdvancedDHCP.ServerID with
  | none => { result := .panics, calls := [] }
  | some serverId =>
    let r := c.CreateDhcpIpPool serverId pool
    let calls := [RemoteCall.createDhcpIpPool serverId pool]
    match r.err with
    | some e => { result := .ret (state, some (creatingErr e)), calls := calls }
    | none =>
      match r.resp with
      | none => { result := .panics, calls := calls }
      | some resp =>
        if resp.statusCode != 201 then
          { result := .ret (state, some (unexpectedStatusErr "creating" resp.statusCode)), calls := calls }
        else
          { result := .ret (setIPPoolID state (some r.payload.Id), none), calls := calls }

/-- `Ensure` (source lines 330-396): derive gateway (offset 1), pool start
(offset 10) and pool end (offset -1) from the worker subnet, wrapping
derivation failures; then read/diff/update or create.  Both the read call and
the create call dereference `*state.AdvancedDHCP.ServerID`.  The self-heal
recursion on a 404 read re-enters with a nil `IPPoolID` and deterministically
takes the create branch, so it is embedded as a direct `EnsureCreate` on the
cleared state. -/
def Ensure (c : NsxClient) (spec : NSXTInfraSpec) (state : NSXTInfraState) : TaskRun :=
  match cidrHost spec.WorkersNetwork 1 with
  | .error e => { result := .ret (state, some (addressErr "gateway IP" e)), calls := [] }
  | .ok gatewayIP =>
    match cidrHost spec.WorkersNetwork 10 with
    | .error e => { result := .ret (state, some (addressErr "start IP of pool" e)), calls := [] }
    | .ok startIP =>
      match cidrHost spec.WorkersNetwork (-1) with
      | .error e => { result := .ret (state, some (addressErr "end IP of pool" e)), calls := [] }
      | .ok endIP =>
        let ipPoolRange : IpPoolRange := { Start := startIP, End := endIP }
        let pool := desiredPool spec gatewayIP startIP endIP
        match state.AdvancedDHCP.IPPoolID with
        | none => EnsureCreate c state pool
        | some ipPoolId =>
          match state.AdvancedDHCP.ServerID with
          | none => { result := .panics, calls := [] }
          | some serverId =>
            let r := c.ReadDhcpIpPool serverId ipPoolId
            let readCall := RemoteCall.readDhcpIpPool serverId ipPoolId
            if resp404 r.resp then
              prependCall readCall (EnsureCreate c (setIPPoolID state none) pool)
            else
              match r.err with
              | some e => { result := .ret (state, some (readingErr e)), calls := [readCall] }
              | none =>
                if dhcpIpPoolNeedsUpdate r.payload pool ipPoolRange then
                  let u := c.UpdateDhcpIpPool serverId ipPoolId pool
                  let calls := [readCall, RemoteCall.updateDhcpIpPool serverId ipPoolId pool]
                  match u.err with
                  | some e => { result := .ret (state, some (updatingErr e)), calls := calls }
                  | none =>
                    match u.resp with
                    | none => { result := .panics, calls := calls }
                    | some uresp =>
                      if uresp.statusCode != 200 then
                        { result := .ret (state, some (unexpectedStatusErr "updating" uresp.statusCode)), calls := calls }
                      else
                        { result := .ret (state, none), calls := calls }
                else
                  { result := .ret (state, none), calls := [readCall] }

/-- `EnsureDeleted` (source lines 398-412): the delete call dereferences
`*state.AdvancedDHCP.ServerID` as the parent id. -/
def EnsureDeleted (c : NsxClient) (_spec : NSXTInfraSpec) (state : NSXTInfraState) : DeleteRun :=
  match state.AdvancedDHCP.IPPoolID with
  | none => { result := .ret (state, false, none), calls := [] }
  | some ipPoolId =>
    match state.AdvancedDHCP.ServerID with
    | none => { result := .panics, calls := [] }
    | some serverId =>
      let r := c.DeleteDhcpIpPool serverId ipPoolId
      let calls := [RemoteCall.deleteDhcpIpPool serverId ipPoolId]
      if resp404 r.resp then
        { result := .ret (setIPPoolID state none, false, none), calls := calls }
      else
        match r.err with
        | some e => { result := .ret (state, false, some (.transport e)), calls := calls }
        | none => { result := .ret (setIPPoolID state none, true, none), calls := calls }

end advancedDHCPIPPoolTask

/-! ## Concrete fixtures used by the witnesses and counterexamples -/

/-- A call result for an endpoint the scenario does not expect to be hit. -/
def noCall (a : α) : CallResult α :=
  { payload := a, resp := none, err := some { msg := "unexpected remote call" } }

/-- A delete-call result for an endpoint the scenario does not expect to be hit. -/
def noDeleteCall : DeleteCallResult :=
  { resp := none, err := some { msg := "unexpected remote call" } }

/-- A client that fails every call; scenarios override the endpoints they use. -/
def stubClient : NsxClient :=
  { ListEdgeClusters := noCall default,
    ReadDhcpProfile := fun _ => noCall default,
    CreateDhcpProfile := fun _ => noCall default,
    UpdateDhcpProfile := fun _ _ => noCall default,
    DeleteDhcpProfile := fun _ => noDeleteCall,
    ReadDhcpServer := fun _ => noCall default,
    CreateDhcpServer := fun _ => noCall default,
    UpdateDhcpServer := fun _ _ => noCall default,
    DeleteDhcpServer := fun _ => noDeleteCall,
    ListLogicalSwitches := noCall default,
    GetLogicalPort := fun _ => noCall default,
    CreateLogicalPort := fun _ => noCall default,
    UpdateLogicalPort := fun _ _ => noCall default,
    DeleteLogicalPort := fun _ _ => noDeleteCall,
    ReadDhcpIpPool := fun _ _ => noCall default,
    CreateDhcpIpPool := fun _ _ => noCall default,
    UpdateDhcpIpPool := fun _ _ _ => noCall default,
    DeleteDhcpIpPool := fun _ _ => noDeleteCall }

/-- The worker subnet `10.0.0.0/24` (`10*2^24 = 167772160`). -/
def cidr24 : Cidr := { addr := 167772160, maskLen := 24 }

/-- A concrete spec over the worker subnet `10.0.0.0/24`. -/
def specA : NSXTInfraSpec :=
  { EdgeClusterName := "edge-cluster-1",
    WorkersNetwork := cidr24,
    DNSServers := ["10.10.10.10", "10.10.10.11"],
    ClusterName := "shoot--foo--bar",
    CommonTags := [{ scope := "gardener", tag := "cluster" }] }

/-- A state in which every task has already stored its reference. -/
def stateFull : NSXTInfraState :=
  { AdvancedDHCP :=
      { EdgeClusterID := some "ec-1",
        ProfileID := some "profile-1",
        ServerID := some "server-1",
        LogicalSwitchID := some "ls-1",
        PortID := some "port-1",
        IPPoolID := some "pool-1" },
    SegmentRef := { Path := "/infra/segments/seg-1" } }

/-- A state in which no task has stored anything yet. -/
def stateEmpty : NSXTInfraState :=
  { AdvancedDHCP :=
      { EdgeClusterID := none,
        ProfileID := none,
        ServerID := none,
        LogicalSwitchID := none,
        PortID := none,
        IPPoolID := none },
    SegmentRef := { Path := "/infra/segments/seg-1" } }

/-- The pool `ReadDhcpIpPool` reports for `stateFull` under `specA`: identical,
field by field, to the desired pool `Ensure` builds (the remote id itself is
not among the compared fields). -/
def oldPoolA : DhcpIpPool :=
  { Id := "pool-1",
    DisplayName := "shoot--foo--bar",
    Description := description,
    GatewayIp := "10.0.0.1",
    LeaseTime := 7200,
    ErrorThreshold := 98,
    WarningThreshold := 70,
    AllocationRanges := [{ Start := "10.0.0.10", End := "10.0.0.254" }],
    Tags := [{ scope := "gardener", tag := "cluster" }] }

/-- Client for the no-drift second `Ensure` of the IP pool: the read-back pool
equals the desired one and the update endpoint simply succeeds. -/
def clientPoolEqual : NsxClient :=
  { stubClient with
    ReadDhcpIpPool := fun _ _ =>
      { payload := oldPoolA, resp := some { statusCode := 200 }, err := none },
    UpdateDhcpIpPool := fun _ _ _ =>
      { payload := oldPoolA, resp := some { statusCode := 200 }, err := none } }

/-- Client whose `ListEdgeClusters` answers with a non-success HTTP status, a
nil transport error, and a result list containing the sought edge cluster. -/
def clientEdge500 : NsxClient :=
  { stubClient with
    ListEdgeClusters :=
      { payload := { Results := [{ Id := "ec-1", DisplayName := "edge-cluster-1" }] },
        resp := some { statusCode := 500 },
        err := none } }

/-! ## Claims -/

/-- C1: contrary to the claim, a second `advancedDHCPIPPoolTask.Ensure` with
unchanged spec and a read-back pool identical, field by field, to the desired
pool (ErrorThreshold 98, WarningThreshold 70) does issue a write: the source's
update condition compares the two thresholds with `==`, so threshold equality
itself triggers `UpdateDhcpIpPool`.  Evaluated at the concrete no-drift input:
the read-back pool is the desired pool (up to the uncompared remote `Id`), its
thresholds are 98 and 70, and the run issues an update call. -/
theorem poolEnsure_updatesOnEqualReadback :
    oldPoolA = { advancedDHCPIPPoolTask.desiredPool specA "10.0.0.1" "10.0.0.10" "10.0.0.254"
                   with Id := "pool-1" } ∧
    oldPoolA.ErrorThreshold = 98 ∧
    oldPoolA.WarningThreshold = 70 ∧
    (advancedDHCPIPPoolTask.Ensure clientPoolEqual specA stateFull).calls =
      [RemoteCall.readDhcpIpPool "server-1" "pool-1",
       RemoteCall.updateDhcpIpPool "server-1" "pool-1"
         (advancedDHCPIPPoolTask.desiredPool specA "10.0.0.1" "10.0.0.10" "10.0.0.254")] ∧
    (advancedDHCPIPPoolTask.Ensure clientPoolEqual specA stateFull).calls.any
      RemoteCall.isUpdate = true ∧
    (advancedDHCPIPPoolTask.Ensure clientPoolEqual specA stateFull).result =
      GoResult.ret (stateFull, none) :=
  ⟨rfl, rfl, rfl, rfl, rfl, rfl⟩

/-- C2: contrary to the claim, the edge-cluster lookup discards the HTTP
response of `ListEdgeClusters`: with a 500 status, a nil transport error and a
result list containing the sought display name, `Ensure` returns success and
stores the id instead of returning an error. -/
theorem edgeClusterEnsure_ignoresNonSuccessStatus :
    clientEdge500.ListEdgeClusters.err = none ∧
    clientEdge500.ListEdgeClusters.resp = some { statusCode := 500 } ∧
    (advancedLookupEdgeClusterTask.Ensure clientEdge500 specA stateEmpty).result =
      GoResult.ret (setEdgeClusterID stateEmpty (some "ec-1"), none) :=
  ⟨rfl, rfl, rfl⟩

/-- C5: address derivation for the worker subnet `10.0.0.0/24`: gateway
(host offset 1) is `10.0.0.1`, DHCP server address (host offset 2, with the
subnet's prefix length) is `10.0.0.2/24`, pool start (host offset 10) is
`10.0.0.10`, and pool end (offset -1, one below the broadcast address) is
`10.0.0.254`; the derivation is a pure function of the subnet. -/
theorem addressDerivation_cidr24 :
    cidrHost cidr24 1 = .ok "10.0.0.1" ∧
    cidrHostAndMask cidr24 2 = .ok "10.0.0.2/24" ∧
    cidrHost cidr24 10 = .ok "10.0.0.10" ∧
    cidrHost cidr24 (-1) = .ok "10.0.0.254" :=
  ⟨rfl, rfl, rfl, rfl⟩

/-- C10: contrary to the claim, `advancedDHCPProfileTask.reference` builds the
profile task's reference from `state.AdvancedDHCP.PortID` (source line 63), not
from `ProfileID`: on a state carrying distinct profile and port ids the two
disagree.  The IP-pool task's accessor does use its own `IPPoolID`. -/
theorem profileReference_builtFromPortID :
    (∀ state : NSXTInfraState,
        advancedDHCPProfileTask.reference state = toReference state.AdvancedDHCP.PortID) ∧
    advancedDHCPProfileTask.reference stateFull ≠
      toReference stateFull.AdvancedDHCP.ProfileID ∧
    (∀ state : NSXTInfraState,
        advancedDHCPIPPoolTask.reference state = toReference state.AdvancedDHCP.IPPoolID) := by
  refine ⟨fun _ => rfl, ?_, fun _ => rfl⟩
  decide

/-- C3: when the DHCP server Reference is absent, `advancedDHCPIPPoolTask.Ensure`
issues no remote call at all — in particular no create — but it does not return
an error either: it dereferences the nil `ServerID` (a Go nil-pointer panic),
whether or not an `IPPoolID` is stored.  (The address derivations are assumed
to succeed; otherwise the run stops even earlier with an address error.) -/
theorem poolEnsure_noServerRef_panicsWithoutCreate
    (c : NsxClient) (spec : NSXTInfraSpec) (state : NSXTInfraState)
    (gIP sIP eIP : String)
    (hs : state.AdvancedDHCP.ServerID = none)
    (h1 : cidrHost spec.WorkersNetwork 1 = .ok gIP)
    (h10 : cidrHost spec.WorkersNetwork 10 = .ok sIP)
    (hm1 : cidrHost spec.WorkersNetwork (-1) = .ok eIP) :
    (advancedDHCPIPPoolTask.Ensure c spec state).result = GoResult.panics ∧
    (advancedDHCPIPPoolTask.Ensure c spec state).calls = [] := by
  cases hip : state.AdvancedDHCP.IPPoolID with
  | none =>
    constructor <;>
      simp [advancedDHCPIPPoolTask.Ensure, advancedDHCPIPPoolTask.EnsureCreate,
            h1, h10, hm1, hs, hip]
  | some ipid =>
    constructor <;>
      simp [advancedDHCPIPPoolTask.Ensure, h1, h10, hm1, hs, hip]

/-- Witness for C3's theorem at a concrete input: worker subnet `10.0.0.0/24`,
a state with no `ServerID`, any client. -/
theorem poolEnsure_noServerRef_panicsWithoutCreate_witness :
    stateEmpty.AdvancedDHCP.ServerID = none ∧
    cidrHost specA.WorkersNetwork 1 = .ok "10.0.0.1" ∧
    (advancedDHCPIPPoolTask.Ensure stubClient specA stateEmpty).result = GoResult.panics ∧
    (advancedDHCPIPPoolTask.Ensure stubClient specA stateEmpty).calls = [] :=
  ⟨rfl, rfl,
    (poolEnsure_noServerRef_panicsWithoutCreate stubClient specA stateEmpty
      "10.0.0.1" "10.0.0.10" "10.0.0.254" rfl rfl rfl rfl).1,
    (poolEnsure_noServerRef_panicsWithoutCreate stubClient specA stateEmpty
      "10.0.0.1" "10.0.0.10" "10.0.0.254" rfl rfl rfl rfl).2⟩

/-- C4: self-heal for each of the four owning tasks (profile, server, port,
pool): with a stored Reference whose read-by-id reports 404, `Ensure` clears
the Reference, attempts creation exactly once — the call trace is exactly one
read followed by one create — and, the creation succeeding with 201, ends with
the newly created id stored as the task's Reference and no error. -/
theorem ownerTasks_selfHealRecreate :
    (∀ (c : NsxClient) (spec : NSXTInfraSpec) (state : NSXTInfraState) (ecid pid : String),
      state.AdvancedDHCP.EdgeClusterID = some ecid →
      state.AdvancedDHCP.ProfileID = some pid →
      resp404 (c.ReadDhcpProfile pid).resp = true →
      (c.CreateDhcpProfile (advancedDHCPProfileTask.desiredProfile spec ecid)).err = none →
      (c.CreateDhcpProfile (advancedDHCPProfileTask.desiredProfile spec ecid)).resp =
        some { statusCode := 201 } →
      (advancedDHCPProfileTask.Ensure c spec state).result =
        GoResult.ret (setProfileID state
          (some (c.CreateDhcpProfile (advancedDHCPProfileTask.desiredProfile spec ecid)).payload.Id),
          none) ∧
      (advancedDHCPProfileTask.Ensure c spec state).calls =
        [RemoteCall.readDhcpProfile pid,
         RemoteCall.createDhcpProfile (advancedDHCPProfileTask.desiredProfile spec ecid)]) ∧
    (∀ (c : NsxClient) (spec : NSXTInfraSpec) (state : NSXTInfraState) (sip gip prid sid : String),
      cidrHostAndMask spec.WorkersNetwork 2 = .ok sip →
      cidrHost spec.WorkersNetwork 1 = .ok gip →
      state.AdvancedDHCP.ProfileID = some prid →
      state.AdvancedDHCP.ServerID = some sid →
      resp404 (c.ReadDhcpServer sid).resp = true →
      (c.CreateDhcpServer (advancedDHCPServerTask.desiredServer spec prid sip gip)).err = none →
      (c.CreateDhcpServer (advancedDHCPServerTask.desiredServer spec prid sip gip)).resp =
        some { statusCode := 201 } →
      (advancedDHCPServerTask.Ensure c spec state).result =
        GoResult.ret (setServerID state
          (some (c.CreateDhcpServer (advancedDHCPServerTask.desiredServer spec prid sip gip)).payload.Id),
          none) ∧
      (advancedDHCPServerTask.Ensure c spec state).calls =
        [RemoteCall.readDhcpServer sid,
         RemoteCall.createDhcpServer (advancedDHCPServerTask.desiredServer spec prid sip gip)]) ∧
    (∀ (c : NsxClient) (spec : NSXTInfraSpec) (state : NSXTInfraState) (sid lsid pid : String),
      state.AdvancedDHCP.ServerID = some sid →
      state.AdvancedDHCP.LogicalSwitchID = some lsid →
      state.AdvancedDHCP.PortID = some pid →
      resp404 (c.GetLogicalPort pid).resp = true →
      (c.CreateLogicalPort (advancedDHCPPortTask.desiredPort spec lsid sid)).err = none →
      (c.CreateLogicalPort (advancedDHCPPortTask.desiredPort spec lsid sid)).resp =
        some { statusCode := 201 } →
      (advancedDHCPPortTask.Ensure c spec state).result =
        GoResult.ret (setPortID state
          (some (c.CreateLogicalPort (advancedDHCPPortTask.desiredPort spec lsid sid)).payload.Id),
          none) ∧
      (advancedDHCPPortTask.Ensure c spec state).calls =
        [RemoteCall.getLogicalPort pid,
         RemoteCall.createLogicalPort (advancedDHCPPortTask.desiredPort spec lsid sid)]) ∧
    (∀ (c : NsxClient) (spec : NSXTInfraSpec) (state : NSXTInfraState) (gip sip eip sid ipid : String),
      cidrHost spec.WorkersNetwork 1 = .ok gip →
      cidrHost spec.WorkersNetwork 10 = .ok sip →
      cidrHost spec.WorkersNetwork (-1) = .ok eip →
      state.AdvancedDHCP.ServerID = some sid →
      state.AdvancedDHCP.IPPoolID = some ipid →
      resp404 (c.ReadDhcpIpPool sid ipid).resp = true →
      (c.CreateDhcpIpPool sid (advancedDHCPIPPoolTask.desiredPool spec gip sip eip)).err = none →
      (c.CreateDhcpIpPool sid (advancedDHCPIPPoolTask.desiredPool spec gip sip eip)).resp =
        some { statusCode := 201 } →
      (advancedDHCPIPPoolTask.Ensure c spec state).result =
        GoResult.ret (setIPPoolID state
          (some (c.CreateDhcpIpPool sid
            (advancedDHCPIPPoolTask.desiredPool spec gip sip eip)).payload.Id),
          none) ∧
      (advancedDHCPIPPoolTask.Ensure c spec state).calls =
        [RemoteCall.readDhcpIpPool sid ipid,
         RemoteCall.createDhcpIpPool sid (advancedDHCPIPPoolTask.desiredPool spec gip sip eip)]) := by
  refine ⟨?_, ?_, ?_, ?_⟩
  · intro c spec state ecid pid hec hpid hread herr hresp
    constructor <;>
      simp [advancedDHCPProfileTask.Ensure, advancedDHCPProfileTask.EnsureCreate,
            prependCall, setProfileID, hec, hpid, hread, herr, hresp]
  · intro c spec state sip gip prid sid hm h1 hprid hsid hread herr hresp
    constructor <;>
      simp [advancedDHCPServerTask.Ensure, advancedDHCPServerTask.EnsureCreate,
            prependCall, setServerID, hm, h1, hprid, hsid, hread, herr, hresp]
  · intro c spec state sid lsid pid hsid hlsid hpid hread herr hresp
    constructor <;>
      simp [advancedDHCPPortTask.Ensure, advancedDHCPPortTask.EnsureCreate,
            prependCall, setPortID, hsid, hlsid, hpid, hread, herr, hresp]
  · intro c spec state gip sip eip sid ipid h1 h10 hm1 hsid hipid hread herr hresp
    constructor <;>
      simp [advancedDHCPIPPoolTask.Ensure, advancedDHCPIPPoolTask.EnsureCreate,
            prependCall, setIPPoolID, h1, h10, hm1, hsid, hipid, hread, herr, hresp]

/-- Client for the self-heal witness: every read answers 404, every create
succeeds with 201 and a fresh id. -/
def clientSelfHeal : NsxClient :=
  { stubClient with
    ReadDhcpProfile := fun _ =>
      { payload := default, resp := some { statusCode := 404 }, err := some { msg := "not found" } },
    CreateDhcpProfile := fun p =>
      { payload := { p with Id := "profile-new" }, resp := some { statusCode := 201 }, err := none },
    ReadDhcpServer := fun _ =>
      { payload := default, resp := some { statusCode := 404 }, err := some { msg := "not found" } },
    CreateDhcpServer := fun s =>
      { payload := { s with Id := "server-new" }, resp := some { statusCode := 201 }, err := none },
    GetLogicalPort := fun _ =>
      { payload := default, resp := some { statusCode := 404 }, err := some { msg := "not found" } },
    CreateLogicalPort := fun p =>
      { payload := { p with Id := "port-new" }, resp := some { statusCode := 201 }, err := none },
    ReadDhcpIpPool := fun _ _ =>
      { payload := default, resp := some { statusCode := 404 }, err := some { msg := "not found" } },
    CreateDhcpIpPool := fun _ p =>
      { payload := { p with Id := "pool-new" }, resp := some { statusCode := 201 }, err := none } }

/-- Witness for C4's theorem: all four owning tasks, at the concrete 404-then-
create client, end with the freshly created id stored. -/
theorem ownerTasks_selfHealRecreate_witness :
    (advancedDHCPProfileTask.Ensure clientSelfHeal specA stateFull).result =
      GoResult.ret (setProfileID stateFull (some "profile-new"), none) ∧
    (advancedDHCPServerTask.Ensure clientSelfHeal specA stateFull).result =
      GoResult.ret (setServerID stateFull (some "server-new"), none) ∧
    (advancedDHCPPortTask.Ensure clientSelfHeal specA stateFull).result =
      GoResult.ret (setPortID stateFull (some "port-new"), none) ∧
    (advancedDHCPIPPoolTask.Ensure clientSelfHeal specA stateFull).result =
      GoResult.ret (setIPPoolID stateFull (some "pool-new"), none) :=
  ⟨(ownerTasks_selfHealRecreate.1 clientSelfHeal specA stateFull
      "ec-1" "profile-1" rfl rfl rfl rfl rfl).1,
   (ownerTasks_selfHealRecreate.2.1 clientSelfHeal specA stateFull
      "10.0.0.2/24" "10.0.0.1" "profile-1" "server-1" rfl rfl rfl rfl rfl rfl rfl).1,
   (ownerTasks_selfHealRecreate.2.2.1 clientSelfHeal specA stateFull
      "server-1" "ls-1" "port-1" rfl rfl rfl rfl rfl rfl).1,
   (ownerTasks_selfHealRecreate.2.2.2 clientSelfHeal specA stateFull
      "10.0.0.1" "10.0.0.10" "10.0.0.254" "server-1" "pool-1"
      rfl rfl rfl rfl rfl rfl rfl rfl).1⟩

/-- Helper: tag lists that are equal as multisets of `(scope, tag)` pairs
compare equal under `equalCommonTags` (equal lengths, and every tag of the
left list occurs in the right list). -/
theorem equalCommonTags_of_multisetEq (a b : List Tag)
    (h : Multiset.ofList (a.map fun t => (t.scope, t.tag)) =
         Multiset.ofList (b.map fun t => (t.scope, t.tag))) :
    equalCommonTags a b = true := by
  have hperm : List.Perm (a.map fun t => (t.scope, t.tag)) (b.map fun t => (t.scope, t.tag)) :=
    Multiset.coe_eq_coe.mp h
  have hlen : a.length = b.length := by
    have h2 := hperm.length_eq
    simpa using h2
  unfold equalCommonTags
  have hcond : (a.length != b.length) = false := by simp [hlen]
  rw [hcond, if_neg (by simp), List.all_eq_true]
  intro ai hai
  have hmem : (ai.scope, ai.tag) ∈ b.map fun t => (t.scope, t.tag) :=
    hperm.mem_iff.mp (List.mem_map_of_mem _ hai)
  rcases List.mem_map.mp hmem with ⟨bi, hbi, heq⟩
  rw [List.any_eq_true]
  refine ⟨bi, hbi, ?_⟩
  have h1 : bi.scope = ai.scope := congrArg Prod.fst heq
  have h2 : bi.tag = ai.tag := congrArg Prod.snd heq
  simp [h1, h2]

/-- C6 counterexample: `equalCommonTags` is not multiset equality.  The lists
`[(s,t), (s,t)]` and `[(s,t), (s,u)]` have equal length and every tag of the
first occurs in the second, so `equalCommonTags` accepts them, yet they differ
as multisets of `(scope, tag)` pairs. -/
theorem equalCommonTags_notMultisetEquality :
    equalCommonTags
      [{ scope := "s", tag := "t" }, { scope := "s", tag := "t" }]
      [{ scope := "s", tag := "t" }, { scope := "s", tag := "u" }] = true ∧
    Multiset.ofList
      (([{ scope := "s", tag := "t" }, { scope := "s", tag := "t" }] : List Tag).map
        fun t => (t.scope, t.tag)) ≠
    Multiset.ofList
      (([{ scope := "s", tag := "t" }, { scope := "s", tag := "u" }] : List Tag).map
        fun t => (t.scope, t.tag)) := by
  constructor
  · rfl
  · intro h
    have hperm := Multiset.coe_eq_coe.mp h
    have := hperm.length_eq
    have hmem := hperm.mem_iff.mpr (by simp : ("s", "u") ∈ _)
    simp at hmem

/-- C6 (amended): `equalCommonTags` is order-insensitive — multiset-equal tag
lists always compare equal, so reordering tags never triggers an update — but
acceptance does not imply multiset equality.  DNS-server lists are compared
positionally (`equalOrderedStrings` is list equality), so any change of order
between distinct DNS lists makes the server task's update condition fire,
while permuting the tags with everything else unchanged does not. -/
theorem equalCommonTags_orderInsensitive_dnsPositional :
    (∀ a b : List Tag,
      Multiset.ofList (a.map fun t => (t.scope, t.tag)) =
        Multiset.ofList (b.map fun t => (t.scope, t.tag)) →
      equalCommonTags a b = true) ∧
    (∀ xs ys : List String, equalOrderedStrings xs ys = true ↔ xs = ys) ∧
    (∀ (oldServer server : LogicalDhcpServer) (ipv4 oldIpv4 : IPv4DhcpServer),
      oldServer.Ipv4DhcpServer = some oldIpv4 →
      oldIpv4.DnsNameservers ≠ ipv4.DnsNameservers →
      advancedDHCPServerTask.logicalDhcpServerNeedsUpdate oldServer server ipv4 = true) ∧
    (∀ (server : LogicalDhcpServer) (ipv4 : IPv4DhcpServer) (tags2 : List Tag),
      server.Ipv4DhcpServer = some ipv4 →
      Multiset.ofList (tags2.map fun t => (t.scope, t.tag)) =
        Multiset.ofList (server.Tags.map fun t => (t.scope, t.tag)) →
      advancedDHCPServerTask.logicalDhcpServerNeedsUpdate
        { server with Tags := tags2 } server ipv4 = false) := by
  refine ⟨equalCommonTags_of_multisetEq, ?_, ?_, ?_⟩
  · intro xs ys
    unfold equalOrderedStrings
    exact beq_iff_eq
  · intro oldServer server ipv4 oldIpv4 hold hdns
    have hne : equalOrderedStrings oldIpv4.DnsNameservers ipv4.DnsNameservers = false := by
      unfold equalOrderedStrings
      exact beq_eq_false_iff_ne.mpr hdns
    unfold advancedDHCPServerTask.logicalDhcpServerNeedsUpdate
    rw [hold]
    simp [hne]
  · intro server ipv4 tags2 hsrv hms
    have htags : equalCommonTags tags2 server.Tags = true :=
      equalCommonTags_of_multisetEq _ _ hms
    simp [advancedDHCPServerTask.logicalDhcpServerNeedsUpdate, hsrv, htags,
          equalOrderedStrings]

/-- The desired IPv4 sub-object of `serverA`. -/
def ipv4A : IPv4DhcpServer :=
  { DhcpServerIp := "10.0.0.2/24",
    DnsNameservers := ["10.10.10.10", "10.10.10.11"],
    GatewayIp := "10.0.0.1" }

/-- `ipv4A` with the DNS servers in the opposite order. -/
def ipv4Reordered : IPv4DhcpServer :=
  { ipv4A with DnsNameservers := ["10.10.10.11", "10.10.10.10"] }

/-- A concrete logical DHCP server with two tags. -/
def serverA : LogicalDhcpServer :=
  { Id := "server-1",
    Description := description,
    DisplayName := "shoot--foo--bar",
    Tags := [{ scope := "gardener", tag := "cluster" }, { scope := "x", tag := "y" }],
    DhcpProfileId := "profile-1",
    Ipv4DhcpServer := some ipv4A }

/-- `serverA` as read back with the DNS servers reordered. -/
def serverDnsReordered : LogicalDhcpServer :=
  { serverA with Ipv4DhcpServer := some ipv4Reordered }

/-- Witness for C6's amended theorem at concrete inputs: a tag permutation is
accepted by `equalCommonTags`; positional DNS comparison rejects a reorder; a
DNS reorder fires the server update condition while a pure tag permutation
does not. -/
theorem equalCommonTags_orderInsensitive_dnsPositional_witness :
    equalCommonTags
      [{ scope := "gardener", tag := "cluster" }, { scope := "x", tag := "y" }]
      [{ scope := "x", tag := "y" }, { scope := "gardener", tag := "cluster" }] = true ∧
    (equalOrderedStrings ["10.10.10.10", "10.10.10.11"] ["10.10.10.11", "10.10.10.10"] = true ↔
      ["10.10.10.10", "10.10.10.11"] = ["10.10.10.11", "10.10.10.10"]) ∧
    advancedDHCPServerTask.logicalDhcpServerNeedsUpdate serverDnsReordered serverA ipv4A = true ∧
    advancedDHCPServerTask.logicalDhcpServerNeedsUpdate
      { serverA with Tags := [{ scope := "x", tag := "y" }, { scope := "gardener", tag := "cluster" }] }
      serverA ipv4A = false :=
  ⟨equalCommonTags_orderInsensitive_dnsPositional.1 _ _
      (Multiset.coe_eq_coe.mpr (by decide)),
   equalCommonTags_orderInsensitive_dnsPositional.2.1 _ _,
   equalCommonTags_orderInsensitive_dnsPositional.2.2.1 serverDnsReordered serverA ipv4A
      ipv4Reordered rfl (by decide),
   equalCommonTags_orderInsensitive_dnsPositional.2.2.2 serverA ipv4A
      [{ scope := "x", tag := "y" }, { scope := "gardener", tag := "cluster" }] rfl
      (Multiset.coe_eq_coe.mpr (by decide))⟩

/-- C7: for each owning task, a delete answered with HTTP 404 is treated as
already-satisfied success: `EnsureDeleted` clears the task's Reference, returns
no error and reports nothing-deleted; a delete failing with any transport error
not paired with a 404 response returns that error and leaves the Reference set
(the state is returned unchanged).  For the pool the delete call dereferences
the stored `ServerID`. -/
theorem ownerTasks_ensureDeleted_notFoundIsSuccess :
    (∀ (c : NsxClient) (spec : NSXTInfraSpec) (state : NSXTInfraState) (pid : String),
      state.AdvancedDHCP.ProfileID = some pid →
      (resp404 (c.DeleteDhcpProfile pid).resp = true →
        advancedDHCPProfileTask.EnsureDeleted c spec state =
          { result := GoResult.ret (setProfileID state none, false, none),
            calls := [RemoteCall.deleteDhcpProfile pid] }) ∧
      (∀ e : GoError, resp404 (c.DeleteDhcpProfile pid).resp = false →
        (c.DeleteDhcpProfile pid).err = some e →
        advancedDHCPProfileTask.EnsureDeleted c spec state =
          { result := GoResult.ret (state, false, some (TaskErr.transport e)),
            calls := [RemoteCall.deleteDhcpProfile pid] })) ∧
    (∀ (c : NsxClient) (spec : NSXTInfraSpec) (state : NSXTInfraState) (sid : String),
      state.AdvancedDHCP.ServerID = some sid →
      (resp404 (c.DeleteDhcpServer sid).resp = true →
        advancedDHCPServerTask.EnsureDeleted c spec state =
          { result := GoResult.ret (setServerID state none, false, none),
            calls := [RemoteCall.deleteDhcpServer sid] }) ∧
      (∀ e : GoError, resp404 (c.DeleteDhcpServer sid).resp = false →
        (c.DeleteDhcpServer sid).err = some e →
        advancedDHCPServerTask.EnsureDeleted c spec state =
          { result := GoResult.ret (state, false, some (TaskErr.transport e)),
            calls := [RemoteCall.deleteDhcpServer sid] })) ∧
    (∀ (c : NsxClient) (spec : NSXTInfraSpec) (state : NSXTInfraState) (pid : String),
      state.AdvancedDHCP.PortID = some pid →
      (resp404 (c.DeleteLogicalPort pid true).resp = true →
        advancedDHCPPortTask.EnsureDeleted c spec state =
          { result := GoResult.ret (setPortID state none, false, none),
            calls := [RemoteCall.deleteLogicalPort pid true] }) ∧
      (∀ e : GoError, resp404 (c.DeleteLogicalPort pid true).resp = false →
        (c.DeleteLogicalPort pid true).err = some e →
        advancedDHCPPortTask.EnsureDeleted c spec state =
          { result := GoResult.ret (state, false, some (TaskErr.transport e)),
            calls := [RemoteCall.deleteLogicalPort pid true] })) ∧
    (∀ (c : NsxClient) (spec : NSXTInfraSpec) (state : NSXTInfraState) (sid ipid : String),
      state.AdvancedDHCP.IPPoolID = some ipid →
      state.AdvancedDHCP.ServerID = some sid →
      (resp404 (c.DeleteDhcpIpPool sid ipid).resp = true →
        advancedDHCPIPPoolTask.EnsureDeleted c spec state =
          { result := GoResult.ret (setIPPoolID state none, false, none),
            calls := [RemoteCall.deleteDhcpIpPool sid ipid] }) ∧
      (∀ e : GoError, resp404 (c.DeleteDhcpIpPool sid ipid).resp = false →
        (c.DeleteDhcpIpPool sid ipid).err = some e →
        advancedDHCPIPPoolTask.EnsureDeleted c spec state =
          { result := GoResult.ret (state, false, some (TaskErr.transport e)),
            calls := [RemoteCall.deleteDhcpIpPool sid ipid] })) := by
  refine ⟨?_, ?_, ?_, ?_⟩
  · intro c spec state pid hpid
    constructor
    · intro h404
      simp [advancedDHCPProfileTask.EnsureDeleted, hpid, h404]
    · intro e hn404 herr
      simp [advancedDHCPProfileTask.EnsureDeleted, hpid, hn404, herr]
  · intro c spec state sid hsid
    constructor
    · intro h404
      simp [advancedDHCPServerTask.EnsureDeleted, hsid, h404]
    · intro e hn404 herr
      simp [advancedDHCPServerTask.EnsureDeleted, hsid, hn404, herr]
  · intro c spec state pid hpid
    constructor
    · intro h404
      simp [advancedDHCPPortTask.EnsureDeleted, hpid, h404]
    · intro e hn404 herr
      simp [advancedDHCPPortTask.EnsureDeleted, hpid, hn404, herr]
  · intro c spec state sid ipid hipid hsid
    constructor
    · intro h404
      simp [advancedDHCPIPPoolTask.EnsureDeleted, hipid, hsid, h404]
    · intro e hn404 herr
      simp [advancedDHCPIPPoolTask.EnsureDeleted, hipid, hsid, hn404, herr]

/-- Client whose deletes all answer 404 with a not-found transport error. -/
def clientDelete404 : NsxClient :=
  { stubClient with
    DeleteDhcpProfile := fun _ =>
      { resp := some { statusCode := 404 }, err := some { msg := "not found" } },
    DeleteDhcpServer := fun _ =>
      { resp := some { statusCode := 404 }, err := some { msg := "not found" } },
    DeleteLogicalPort := fun _ _ =>
      { resp := some { statusCode := 404 }, err := some { msg := "not found" } },
    DeleteDhcpIpPool := fun _ _ =>
      { resp := some { statusCode := 404 }, err := some { msg := "not found" } } }

/-- Client whose deletes all fail with a 500 response and a transport error. -/
def clientDelete500 : NsxClient :=
  { stubClient with
    DeleteDhcpProfile := fun _ =>
      { resp := some { statusCode := 500 }, err := some { msg := "boom" } },
    DeleteDhcpServer := fun _ =>
      { resp := some { statusCode := 500 }, err := some { msg := "boom" } },
    DeleteLogicalPort := fun _ _ =>
      { resp := some { statusCode := 500 }, err := some { msg := "boom" } },
    DeleteDhcpIpPool := fun _ _ =>
      { resp := some { statusCode := 500 }, err := some { msg := "boom" } } }

/-- Witness for C7's theorem: both cases of every owning task at concrete
inputs. -/
theorem ownerTasks_ensureDeleted_notFoundIsSuccess_witness :
    advancedDHCPProfileTask.EnsureDeleted clientDelete404 specA stateFull =
      { result := GoResult.ret (setProfileID stateFull none, false, none),
        calls := [RemoteCall.deleteDhcpProfile "profile-1"] } ∧
    advancedDHCPServerTask.EnsureDeleted clientDelete404 specA stateFull =
      { result := GoResult.ret (setServerID stateFull none, false, none),
        calls := [RemoteCall.deleteDhcpServer "server-1"] } ∧
    advancedDHCPPortTask.EnsureDeleted clientDelete404 specA stateFull =
      { result := GoResult.ret (setPortID stateFull none, false, none),
        calls := [RemoteCall.deleteLogicalPort "port-1" true] } ∧
    advancedDHCPIPPoolTask.EnsureDeleted clientDelete404 specA stateFull =
      { result := GoResult.ret (setIPPoolID stateFull none, false, none),
        calls := [RemoteCall.deleteDhcpIpPool "server-1" "pool-1"] } ∧
    advancedDHCPProfileTask.EnsureDeleted clientDelete500 specA stateFull =
      { result := GoResult.ret (stateFull, false, some (TaskErr.transport { msg := "boom" })),
        calls := [RemoteCall.deleteDhcpProfile "profile-1"] } ∧
    advancedDHCPServerTask.EnsureDeleted clientDelete500 specA stateFull =
      { result := GoResult.ret (stateFull, false, some (TaskErr.transport { msg := "boom" })),
        calls := [RemoteCall.deleteDhcpServer "server-1"] } ∧
    advancedDHCPPortTask.EnsureDeleted clientDelete500 specA stateFull =
      { result := GoResult.ret (stateFull, false, some (TaskErr.transport { msg := "boom" })),
        calls := [RemoteCall.deleteLogicalPort "port-1" true] } ∧
    advancedDHCPIPPoolTask.EnsureDeleted clientDelete500 specA stateFull =
      { result := GoResult.ret (stateFull, false, some (TaskErr.transport { msg := "boom" })),
        calls := [RemoteCall.deleteDhcpIpPool "server-1" "pool-1"] } :=
  ⟨(ownerTasks_ensureDeleted_notFoundIsSuccess.1 clientDelete404 specA stateFull
      "profile-1" rfl).1 rfl,
   (ownerTasks_ensureDeleted_notFoundIsSuccess.2.1 clientDelete404 specA stateFull
      "server-1" rfl).1 rfl,
   (ownerTasks_ensureDeleted_notFoundIsSuccess.2.2.1 clientDelete404 specA stateFull
      "port-1" rfl).1 rfl,
   (ownerTasks_ensureDeleted_notFoundIsSuccess.2.2.2 clientDelete404 specA stateFull
      "server-1" "pool-1" rfl rfl).1 rfl,
   (ownerTasks_ensureDeleted_notFoundIsSuccess.1 clientDelete500 specA stateFull
      "profile-1" rfl).2 { msg := "boom" } rfl rfl,
   (ownerTasks_ensureDeleted_notFoundIsSuccess.2.1 clientDelete500 specA stateFull
      "server-1" rfl).2 { msg := "boom" } rfl rfl,
   (ownerTasks_ensureDeleted_notFoundIsSuccess.2.2.1 clientDelete500 specA stateFull
      "port-1" rfl).2 { msg := "boom" } rfl rfl,
   (ownerTasks_ensureDeleted_notFoundIsSuccess.2.2.2 clientDelete500 specA stateFull
      "server-1" "pool-1" rfl rfl).2 { msg := "boom" } rfl rfl⟩

/-- Helper: an errorless `advancedDHCPProfileTask.EnsureDeleted` always leaves
`ProfileID` cleared in the returned state. -/
theorem profileEnsureDeleted_noErr_clearsRef (c : NsxClient) (spec : NSXTInfraSpec)
    (state s' : NSXTInfraState) (b : Bool)
    (h : (advancedDHCPProfileTask.EnsureDeleted c spec state).result = GoResult.ret (s', b, none)) :
    s'.AdvancedDHCP.ProfileID = none := by
  revert h
  cases hpid : state.AdvancedDHCP.ProfileID with
  | none =>
    simp only [advancedDHCPProfileTask.EnsureDeleted, hpid, GoResult.ret.injEq, Prod.mk.injEq,
               and_true]
    rintro ⟨rfl, -⟩
    exact hpid
  | some pid =>
    by_cases h404 : resp404 (c.DeleteDhcpProfile pid).resp = true
    · simp only [advancedDHCPProfileTask.EnsureDeleted, hpid, h404, if_true,
                 GoResult.ret.injEq, Prod.mk.injEq, and_true]
      rintro ⟨rfl, -⟩
      rfl
    · cases herr : (c.DeleteDhcpProfile pid).err with
      | some e => simp [advancedDHCPProfileTask.EnsureDeleted, hpid, h404, herr]
      | none =>
        simp only [advancedDHCPProfileTask.EnsureDeleted, hpid, h404, if_false, herr,
                   GoResult.ret.injEq, Prod.mk.injEq, and_true]
        rintro ⟨rfl, -⟩
        rfl

/-- Helper: an errorless `advancedDHCPServerTask.EnsureDeleted` always leaves
`ServerID` cleared in the returned state. -/
theorem serverEnsureDeleted_noErr_clearsRef (c : NsxClient) (spec : NSXTInfraSpec)
    (state s' : NSXTInfraState) (b : Bool)
    (h : (advancedDHCPServerTask.EnsureDeleted c spec state).result = GoResult.ret (s', b, none)) :
    s'.AdvancedDHCP.ServerID = none := by
  revert h
  cases hsid : state.AdvancedDHCP.ServerID with
  | none =>
    simp only [advancedDHCPServerTask.EnsureDeleted, hsid, GoResult.ret.injEq, Prod.mk.injEq,
               and_true]
    rintro ⟨rfl, -⟩
    exact hsid
  | some sid =>
    by_cases h404 : resp404 (c.DeleteDhcpServer sid).resp = true
    · simp only [advancedDHCPServerTask.EnsureDeleted, hsid, h404, if_true,
                 GoResult.ret.injEq, Prod.mk.injEq, and_true]
      rintro ⟨rfl, -⟩
      rfl
    · cases herr : (c.DeleteDhcpServer sid).err with
      | some e => simp [advancedDHCPServerTask.EnsureDeleted, hsid, h404, herr]
      | none =>
        simp only [advancedDHCPServerTask.EnsureDeleted, hsid, h404, if_false, herr,
                   GoResult.ret.injEq, Prod.mk.injEq, and_true]
        rintro ⟨rfl, -⟩
        rfl

/-- Helper: an errorless `advancedDHCPPortTask.EnsureDeleted` always leaves
`PortID` cleared in the returned state. -/
theorem portEnsureDeleted_noErr_clearsRef (c : NsxClient) (spec : NSXTInfraSpec)
    (state s' : NSXTInfraState) (b : Bool)
    (h : (advancedDHCPPortTask.EnsureDeleted c spec state).result = GoResult.ret (s', b, none)) :
    s'.AdvancedDHCP.PortID = none := by
  revert h
  cases hpid : state.AdvancedDHCP.PortID with
  | none =>
    simp only [advancedDHCPPortTask.EnsureDeleted, hpid, GoResult.ret.injEq, Prod.mk.injEq,
               and_true]
    rintro ⟨rfl, -⟩
    exact hpid
  | some pid =>
    by_cases h404 : resp404 (c.DeleteLogicalPort pid true).resp = true
    · simp only [advancedDHCPPortTask.EnsureDeleted, hpid, h404, if_true,
                 GoResult.ret.injEq, Prod.mk.injEq, and_true]
      rintro ⟨rfl, -⟩
      rfl
    · cases herr : (c.DeleteLogicalPort pid true).err with
      | some e => simp [advancedDHCPPortTask.EnsureDeleted, hpid, h404, herr]
      | none =>
        simp only [advancedDHCPPortTask.EnsureDeleted, hpid, h404, if_false, herr,
                   GoResult.ret.injEq, Prod.mk.injEq, and_true]
        rintro ⟨rfl, -⟩
        rfl

/-- Helper: an errorless `advancedDHCPIPPoolTask.EnsureDeleted` always leaves
`IPPoolID` cleared in the returned state. -/
theorem poolEnsureDeleted_noErr_clearsRef (c : NsxClient) (spec : NSXTInfraSpec)
    (state s' : NSXTInfraState) (b : Bool)
    (h : (advancedDHCPIPPoolTask.EnsureDeleted c spec state).result = GoResult.ret (s', b, none)) :
    s'.AdvancedDHCP.IPPoolID = none := by
  revert h
  cases hipid : state.AdvancedDHCP.IPPoolID with
  | none =>
    simp only [advancedDHCPIPPoolTask.EnsureDeleted, hipid, GoResult.ret.injEq, Prod.mk.injEq,
               and_true]
    rintro ⟨rfl, -⟩
    exact hipid
  | some ipid =>
    cases hsid : state.AdvancedDHCP.ServerID with
    | none => simp [advancedDHCPIPPoolTask.EnsureDeleted, hipid, hsid]
    | some sid =>
      by_cases h404 : resp404 (c.DeleteDhcpIpPool sid ipid).resp = true
      · simp only [advancedDHCPIPPoolTask.EnsureDeleted, hipid, hsid, h404, if_true,
                   GoResult.ret.injEq, Prod.mk.injEq, and_true]
        rintro ⟨rfl, -⟩
        rfl
      · cases herr : (c.DeleteDhcpIpPool sid ipid).err with
        | some e => simp [advancedDHCPIPPoolTask.EnsureDeleted, hipid, hsid, h404, herr]
        | none =>
          simp only [advancedDHCPIPPoolTask.EnsureDeleted, hipid, hsid, h404, if_false, herr,
                     GoResult.ret.injEq, Prod.mk.injEq, and_true]
          rintro ⟨rfl, -⟩
          rfl

/-- C8: for each owning task, `EnsureDeleted` on a state whose Reference is
absent returns nothing-deleted with no error and issues no remote call; and
after any `EnsureDeleted` that returned without error, a second `EnsureDeleted`
on the resulting state is exactly such a no-op — deletion is idempotent. -/
theorem ownerTasks_ensureDeleted_idempotent :
    (∀ (c : NsxClient) (spec : NSXTInfraSpec) (state : NSXTInfraState),
      state.AdvancedDHCP.ProfileID = none →
      advancedDHCPProfileTask.EnsureDeleted c spec state =
        { result := GoResult.ret (state, false, none), calls := [] }) ∧
    (∀ (c : NsxClient) (spec : NSXTInfraSpec) (state s' : NSXTInfraState) (b : Bool),
      (advancedDHCPProfileTask.EnsureDeleted c spec state).result = GoResult.ret (s', b, none) →
      advancedDHCPProfileTask.EnsureDeleted c spec s' =
        { result := GoResult.ret (s', false, none), calls := [] }) ∧
    (∀ (c : NsxClient) (spec : NSXTInfraSpec) (state : NSXTInfraState),
      state.AdvancedDHCP.ServerID = none →
      advancedDHCPServerTask.EnsureDeleted c spec state =
        { result := GoResult.ret (state, false, none), calls := [] }) ∧
    (∀ (c : NsxClient) (spec : NSXTInfraSpec) (state s' : NSXTInfraState) (b : Bool),
      (advancedDHCPServerTask.EnsureDeleted c spec state).result = GoResult.ret (s', b, none) →
      advancedDHCPServerTask.EnsureDeleted c spec s' =
        { result := GoResult.ret (s', false, none), calls := [] }) ∧
    (∀ (c : NsxClient) (spec : NSXTInfraSpec) (state : NSXTInfraState),
      state.AdvancedDHCP.PortID = none →
      advancedDHCPPortTask.EnsureDeleted c spec state =
        { result := GoResult.ret (state, false, none), calls := [] }) ∧
    (∀ (c : NsxClient) (spec : NSXTInfraSpec) (state s' : NSXTInfraState) (b : Bool),
      (advancedDHCPPortTask.EnsureDeleted c spec state).result = GoResult.ret (s', b, none) →
      advancedDHCPPortTask.EnsureDeleted c spec s' =
        { result := GoResult.ret (s', false, none), calls := [] }) ∧
    (∀ (c : NsxClient) (spec : NSXTInfraSpec) (state : NSXTInfraState),
      state.AdvancedDHCP.IPPoolID = none →
      advancedDHCPIPPoolTask.EnsureDeleted c spec state =
        { result := GoResult.ret (state, false, none), calls := [] }) ∧
    (∀ (c : NsxClient) (spec : NSXTInfraSpec) (state s' : NSXTInfraState) (b : Bool),
      (advancedDHCPIPPoolTask.EnsureDeleted c spec state).result = GoResult.ret (s', b, none) →
      advancedDHCPIPPoolTask.EnsureDeleted c spec s' =
        { result := GoResult.ret (s', false, none), calls := [] }) := by
  refine ⟨?_, ?_, ?_, ?_, ?_, ?_, ?_, ?_⟩
  · intro c spec state h
    simp [advancedDHCPProfileTask.EnsureDeleted, h]
  · intro c spec state s' b h
    have hnil := profileEnsureDeleted_noErr_clearsRef c spec state s' b h
    simp [advancedDHCPProfileTask.EnsureDeleted, hnil]
  · intro c spec state h
    simp [advancedDHCPServerTask.EnsureDeleted, h]
  · intro c spec state s' b h
    have hnil := serverEnsureDeleted_noErr_clearsRef c spec state s' b h
    simp [advancedDHCPServerTask.EnsureDeleted, hnil]
  · intro c spec state h
    simp [advancedDHCPPortTask.EnsureDeleted, h]
  · intro c spec state s' b h
    have hnil := portEnsureDeleted_noErr_clearsRef c spec state s' b h
    simp [advancedDHCPPortTask.EnsureDeleted, hnil]
  · intro c spec state h
    simp [advancedDHCPIPPoolTask.EnsureDeleted, h]
  · intro c spec state s' b h
    have hnil := poolEnsureDeleted_noErr_clearsRef c spec state s' b h
    simp [advancedDHCPIPPoolTask.EnsureDeleted, hnil]

/-- Witness for C8's theorem: no-op on the empty state, and a second
`EnsureDeleted` right after an errorless first one is a no-op, for all four
owning tasks at concrete inputs. -/
theorem ownerTasks_ensureDeleted_idempotent_witness :
    advancedDHCPProfileTask.EnsureDeleted stubClient specA stateEmpty =
      { result := GoResult.ret (stateEmpty, false, none), calls := [] } ∧
    advancedDHCPProfileTask.EnsureDeleted clientDelete404 specA (setProfileID stateFull none) =
      { result := GoResult.ret (setProfileID stateFull none, false, none), calls := [] } ∧
    advancedDHCPServerTask.EnsureDeleted stubClient specA stateEmpty =
      { result := GoResult.ret (stateEmpty, false, none), calls := [] } ∧
    advancedDHCPServerTask.EnsureDeleted clientDelete404 specA (setServerID stateFull none) =
      { result := GoResult.ret (setServerID stateFull none, false, none), calls := [] } ∧
    advancedDHCPPortTask.EnsureDeleted stubClient specA stateEmpty =
      { result := GoResult.ret (stateEmpty, false, none), calls := [] } ∧
    advancedDHCPPortTask.EnsureDeleted clientDelete404 specA (setPortID stateFull none) =
      { result := GoResult.ret (setPortID stateFull none, false, none), calls := [] } ∧
    advancedDHCPIPPoolTask.EnsureDeleted stubClient specA stateEmpty =
      { result := GoResult.ret (stateEmpty, false, none), calls := [] } ∧
    advancedDHCPIPPoolTask.EnsureDeleted clientDelete404 specA (setIPPoolID stateFull none) =
      { result := GoResult.ret (setIPPoolID stateFull none, false, none), calls := [] } :=
  ⟨ownerTasks_ensureDeleted_idempotent.1 stubClient specA stateEmpty rfl,
   ownerTasks_ensureDeleted_idempotent.2.1 clientDelete404 specA stateFull
     (setProfileID stateFull none) false rfl,
   ownerTasks_ensureDeleted_idempotent.2.2.1 stubClient specA stateEmpty rfl,
   ownerTasks_ensureDeleted_idempotent.2.2.2.1 clientDelete404 specA stateFull
     (setServerID stateFull none) false rfl,
   ownerTasks_ensureDeleted_idempotent.2.2.2.2.1 stubClient specA stateEmpty rfl,
   ownerTasks_ensureDeleted_idempotent.2.2.2.2.2.1 clientDelete404 specA stateFull
     (setPortID stateFull none) false rfl,
   ownerTasks_ensureDeleted_idempotent.2.2.2.2.2.2.1 stubClient specA stateEmpty rfl,
   ownerTasks_ensureDeleted_idempotent.2.2.2.2.2.2.2 clientDelete404 specA stateFull
     (setIPPoolID stateFull none) false rfl⟩

/-- C9: for each owning task with a stored Reference, a read-by-id that fails
with a transport error not paired with a 404 response makes `Ensure` return a
reading error with the state returned completely unchanged, after the single
read call.  (The dereferences and address derivations preceding the read are
reflected as hypotheses.) -/
theorem ownerTasks_readError_leavesStateUnchanged :
    (∀ (c : NsxClient) (spec : NSXTInfraSpec) (state : NSXTInfraState) (ecid pid : String)
        (e : GoError),
      state.AdvancedDHCP.EdgeClusterID = some ecid →
      state.AdvancedDHCP.ProfileID = some pid →
      resp404 (c.ReadDhcpProfile pid).resp = false →
      (c.ReadDhcpProfile pid).err = some e →
      advancedDHCPProfileTask.Ensure c spec state =
        { result := GoResult.ret (state, some (readingErr e)),
          calls := [RemoteCall.readDhcpProfile pid] }) ∧
    (∀ (c : NsxClient) (spec : NSXTInfraSpec) (state : NSXTInfraState) (sip gip prid sid : String)
        (e : GoError),
      cidrHostAndMask spec.WorkersNetwork 2 = .ok sip →
      cidrHost spec.WorkersNetwork 1 = .ok gip →
      state.AdvancedDHCP.ProfileID = some prid →
      state.AdvancedDHCP.ServerID = some sid →
      resp404 (c.ReadDhcpServer sid).resp = false →
      (c.ReadDhcpServer sid).err = some e →
      advancedDHCPServerTask.Ensure c spec state =
        { result := GoResult.ret (state, some (readingErr e)),
          calls := [RemoteCall.readDhcpServer sid] }) ∧
    (∀ (c : NsxClient) (spec : NSXTInfraSpec) (state : NSXTInfraState) (sid lsid pid : String)
        (e : GoError),
      state.AdvancedDHCP.ServerID = some sid →
      state.AdvancedDHCP.LogicalSwitchID = some lsid →
      state.AdvancedDHCP.PortID = some pid →
      resp404 (c.GetLogicalPort pid).resp = false →
      (c.GetLogicalPort pid).err = some e →
      advancedDHCPPortTask.Ensure c spec state =
        { result := GoResult.ret (state, some (readingErr e)),
          calls := [RemoteCall.getLogicalPort pid] }) ∧
    (∀ (c : NsxClient) (spec : NSXTInfraSpec) (state : NSXTInfraState)
        (gip sip eip sid ipid : String) (e : GoError),
      cidrHost spec.WorkersNetwork 1 = .ok gip →
      cidrHost spec.WorkersNetwork 10 = .ok sip →
      cidrHost spec.WorkersNetwork (-1) = .ok eip →
      state.AdvancedDHCP.ServerID = some sid →
      state.AdvancedDHCP.IPPoolID = some ipid →
      resp404 (c.ReadDhcpIpPool sid ipid).resp = false →
      (c.ReadDhcpIpPool sid ipid).err = some e →
      advancedDHCPIPPoolTask.Ensure c spec state =
        { result := GoResult.ret (state, some (readingErr e)),
          calls := [RemoteCall.readDhcpIpPool sid ipid] }) := by
  refine ⟨?_, ?_, ?_, ?_⟩
  · intro c spec state ecid pid e hec hpid hn404 herr
    simp [advancedDHCPProfileTask.Ensure, hec, hpid, hn404, herr]
  · intro c spec state sip gip prid sid e hm h1 hprid hsid hn404 herr
    simp [advancedDHCPServerTask.Ensure, hm, h1, hprid, hsid, hn404, herr]
  · intro c spec state sid lsid pid e hsid hlsid hpid hn404 herr
    simp [advancedDHCPPortTask.Ensure, hsid, hlsid, hpid, hn404, herr]
  · intro c spec state gip sip eip sid ipid e h1 h10 hm1 hsid hipid hn404 herr
    simp [advancedDHCPIPPoolTask.Ensure, h1, h10, hm1, hsid, hipid, hn404, herr]

/-- Client whose reads all fail with a 500 response and a transport error. -/
def clientRead500 : NsxClient :=
  { stubClient with
    ReadDhcpProfile := fun _ =>
      { payload := default, resp := some { statusCode := 500 }, err := some { msg := "boom" } },
    ReadDhcpServer := fun _ =>
      { payload := default, resp := some { statusCode := 500 }, err := some { msg := "boom" } },
    GetLogicalPort := fun _ =>
      { payload := default, resp := some { statusCode := 500 }, err := some { msg := "boom" } },
    ReadDhcpIpPool := fun _ _ =>
      { payload := default, resp := some { statusCode := 500 }, err := some { msg := "boom" } } }

/-- Witness for C9's theorem: all four owning tasks at the concrete failing
reader. -/
theorem ownerTasks_readError_leavesStateUnchanged_witness :
    advancedDHCPProfileTask.Ensure clientRead500 specA stateFull =
      { result := GoResult.ret (stateFull, some (readingErr { msg := "boom" })),
        calls := [RemoteCall.readDhcpProfile "profile-1"] } ∧
    advancedDHCPServerTask.Ensure clientRead500 specA stateFull =
      { result := GoResult.ret (stateFull, some (readingErr { msg := "boom" })),
        calls := [RemoteCall.readDhcpServer "server-1"] } ∧
    advancedDHCPPortTask.Ensure clientRead500 specA stateFull =
      { result := GoResult.ret (stateFull, some (readingErr { msg := "boom" })),
        calls := [RemoteCall.getLogicalPort "port-1"] } ∧
    advancedDHCPIPPoolTask.Ensure clientRead500 specA stateFull =
      { result := GoResult.ret (stateFull, some (readingErr { msg := "boom" })),
        calls := [RemoteCall.readDhcpIpPool "server-1" "pool-1"] } :=
  ⟨ownerTasks_readError_leavesStateUnchanged.1 clientRead500 specA stateFull
      "ec-1" "profile-1" { msg := "boom" } rfl rfl rfl rfl,
   ownerTasks_readError_leavesStateUnchanged.2.1 clientRead500 specA stateFull
      "10.0.0.2/24" "10.0.0.1" "profile-1" "server-1" { msg := "boom" } rfl rfl rfl rfl rfl rfl,
   ownerTasks_readError_leavesStateUnchanged.2.2.1 clientRead500 specA stateFull
      "server-1" "ls-1" "port-1" { msg := "boom" } rfl rfl rfl rfl rfl,
   ownerTasks_readError_leavesStateUnchanged.2.2.2 clientRead500 specA stateFull
      "10.0.0.1" "10.0.0.10" "10.0.0.254" "server-1" "pool-1" { msg := "boom" }
      rfl rfl rfl rfl rfl rfl rfl⟩

end Infrastructure
